import Mathlib

/-!
Shallow embedding of `src/week03/main_improved.py` (Hong Kong air quality
visualization, 1993-2023).

Python floats are modelled as exact rationals (`ℚ`), Python ints as `ℤ`.
`int(...)` on a float is truncation toward zero (`pyTrunc`); `%` on floats
with a positive divisor is floor-based (`pyMod`); `//` on ints is floor
division (`Int.fdiv`).  `numpy` arrays of 12 monthly readings are
`Fin 12 → ℚ`, and the year-keyed dicts are `ℤ → Option (Fin 12 → ℚ)`
(`none` for absent keys).  The Gaussian noise drawn from the global RNG is
made an explicit input of the generators.
-/

namespace HKAir

/-- Python `int(q)` on a float: truncation toward zero. -/
def pyTrunc (q : ℚ) : ℤ := if q < 0 then -⌊-q⌋ else ⌊q⌋

/-- Python `a % b` on floats (for the positive divisors used here):
floor-based remainder. -/
def pyMod (a b : ℚ) : ℚ := a - b * (⌊a / b⌋ : ℚ)

/-- Window width (`WIDTH = 1200`). -/
def WIDTH : ℤ := 1200

/-- Window height (`HEIGHT = 800`). -/
def HEIGHT : ℤ := 800

/-- The nine district names (`DISTRICTS`). -/
def DISTRICTS : List String :=
  ["Central & Western", "Eastern", "Southern", "Wan Chai", "Kowloon City",
   "Kwun Tong", "Sham Shui Po", "Wong Tai Sin", "Yau Tsim Mong"]

/-- The six gradient stops (`GRADIENT_COLORS`), the colors of `AQI_LEVELS`. -/
def GRADIENT_COLORS : List (ℤ × ℤ × ℤ) :=
  [(50, 205, 50), (255, 255, 0), (255, 165, 0), (255, 69, 0), (255, 0, 0), (128, 0, 0)]

/-- `COLORS['particle_good']`. -/
def particle_good : ℤ × ℤ × ℤ := (50, 205, 50)

/-- `COLORS['particle_moderate']`. -/
def particle_moderate : ℤ × ℤ × ℤ := (255, 255, 0)

/-- `COLORS['particle_unhealthy']`. -/
def particle_unhealthy : ℤ × ℤ × ℤ := (255, 165, 0)

/-- `COLORS['particle_hazardous']`. -/
def particle_hazardous : ℤ × ℤ × ℤ := (255, 0, 0)

/-- `interpolate_color(color1, color2, factor)`: per-channel
`int(c1 + (c2 - c1) * factor)`. -/
def interpolate_color (c1 c2 : ℤ × ℤ × ℤ) (factor : ℚ) : ℤ × ℤ × ℤ :=
  (pyTrunc ((c1.1 : ℚ) + ((c2.1 : ℚ) - (c1.1 : ℚ)) * factor),
   pyTrunc ((c1.2.1 : ℚ) + ((c2.2.1 : ℚ) - (c1.2.1 : ℚ)) * factor),
   pyTrunc ((c1.2.2 : ℚ) + ((c2.2.2 : ℚ) - (c1.2.2 : ℚ)) * factor))

/-- `get_color_for_value(value, min_val=0, max_val=150)`.  The source's
defaulted arguments are passed explicitly; list indexing `[0]`, `[-1]`,
`[section]`, `[section + 1]` becomes `getD`/`getLastD` (all indices are in
range on the call sites considered). -/
def get_color_for_value (value min_val max_val : ℚ) : ℤ × ℤ × ℤ :=
  if value ≤ min_val then GRADIENT_COLORS.getD 0 (0, 0, 0)
  else if value ≥ max_val then GRADIENT_COLORS.getLastD (0, 0, 0)
  else
    let section_size := (max_val - min_val) / ((GRADIENT_COLORS.length : ℚ) - 1)
    let sec := pyTrunc ((value - min_val) / section_size)
    let factor := pyMod (value - min_val) section_size / section_size
    interpolate_color (GRADIENT_COLORS.getD sec.toNat (0, 0, 0))
      (GRADIENT_COLORS.getD (sec + 1).toNat (0, 0, 0)) factor

/-- `np.clip(x, lo, hi)` on one scalar. -/
def np_clip (x lo hi : ℚ) : ℚ := min hi (max lo x)

/-- The five hardcoded 12-month base patterns of
`generate_historical_data`, selected by the year's period. -/
def basePattern (year : ℤ) : List ℚ :=
  if 1993 ≤ year ∧ year ≤ 2000 then
    [85, 95, 80, 75, 70, 65, 90, 100, 85, 80, 75, 70]
  else if 2000 < year ∧ year ≤ 2010 then
    [70, 75, 65, 60, 55, 50, 80, 85, 70, 65, 60, 55]
  else if 2010 < year ∧ year ≤ 2015 then
    [55, 60, 50, 45, 40, 35, 65, 70, 55, 50, 45, 40]
  else if 2015 < year ∧ year ≤ 2020 then
    [40, 45, 35, 30, 25, 20, 50, 55, 40, 35, 30, 25]
  else
    [35, 40, 30, 25, 20, 15, 45, 50, 35, 30, 25, 20]

/-- `AirQualityViz.generate_historical_data`: for each year 1993..2023,
the base pattern plus per-month Gaussian noise (`np.random.normal(0, 5, 12)`,
here an explicit input), clamped to `[0, 150]`. -/
def generate_historical_data (noise : ℤ → Fin 12 → ℚ) : ℤ → Option (Fin 12 → ℚ) :=
  fun year =>
    if 1993 ≤ year ∧ year ≤ 2023 then
      some (fun i => np_clip ((basePattern year).getD i.val 0 + noise year i) 0 150)
    else none

/-- `AirQualityViz.generate_district_data`: one fresh baseline from
`generate_historical_data` (its noise is `baseNoise`), plus a single
Gaussian offset per (district, year) (`np.random.normal(0, 10)`, here the
explicit input `variation`), clamped to `[0, 150]` again. -/
def generate_district_data (baseNoise : ℤ → Fin 12 → ℚ)
    (variation : String → ℤ → ℚ) : String → ℤ → Option (Fin 12 → ℚ) :=
  fun district year =>
    if district ∈ DISTRICTS ∧ 1993 ≤ year ∧ year ≤ 2023 then
      (generate_historical_data baseNoise year).map
        (fun s => fun i => np_clip (s i + variation district year) 0 150)
    else none

/-- `np.mean` of a 12-month sample. -/
def mean12 (s : Fin 12 → ℚ) : ℚ := (∑ i, s i) / 12

/-- `self.year_transition_speed = 0.05`. -/
def year_transition_speed : ℚ := 1 / 20

/-- The year-transition step at the top of `update_particles`:
if `abs(year - target) > 0.01` then `year += (target - year) * 0.05`,
else `year = target`. -/
def tickYear (year target : ℚ) : ℚ :=
  if |year - target| > 1 / 100 then year + (target - year) * year_transition_speed
  else target

/-- The interpolated overall AQI computed inside `update_particles`
(lines 313-320): `y0 = int(year)`, `y1 = min(2023, y0 + 1)`,
`frac = year - y0`; start from `mean(aqi_data[y0])` and blend toward
`mean(aqi_data[y1])` when `frac > 0` and `y1` is a key. -/
def update_particles_aqi (aqi_data : ℤ → Option (Fin 12 → ℚ)) (year : ℚ) : Option ℚ :=
  let current_year_int := pyTrunc year
  let next_year_int := min 2023 (current_year_int + 1)
  let year_fraction := year - (current_year_int : ℚ)
  match aqi_data current_year_int with
  | none => none
  | some s =>
    let current_aqi := mean12 s
    some (if year_fraction > 0 then
            match aqi_data next_year_int with
            | some s2 => current_aqi + (mean12 s2 - current_aqi) * year_fraction
            | none => current_aqi
          else current_aqi)

/-- The interpolated overall AQI computed inside `draw` (lines 449-456),
transcribed from that call site. -/
def draw_overall_aqi (aqi_data : ℤ → Option (Fin 12 → ℚ)) (year : ℚ) : Option ℚ :=
  let current_year_int := pyTrunc year
  let next_year_int := min 2023 (current_year_int + 1)
  let year_fraction := year - (current_year_int : ℚ)
  match aqi_data current_year_int with
  | none => none
  | some s =>
    let overall_aqi := mean12 s
    some (if year_fraction > 0 then
            match aqi_data next_year_int with
            | some s2 => overall_aqi + (mean12 s2 - overall_aqi) * year_fraction
            | none => overall_aqi
          else overall_aqi)

/-- The interpolated per-district AQI computed inside
`draw_district_visualization` (lines 344-351), transcribed from that call
site: the same formula over `district_data[district]`. -/
def draw_district_aqi (district_data : String → ℤ → Option (Fin 12 → ℚ))
    (district : String) (year : ℚ) : Option ℚ :=
  let current_year_int := pyTrunc year
  let next_year_int := min 2023 (current_year_int + 1)
  let year_fraction := year - (current_year_int : ℚ)
  match district_data district current_year_int with
  | none => none
  | some s =>
    let aqi := mean12 s
    some (if year_fraction > 0 then
            match district_data district next_year_int with
            | some s2 => aqi + (mean12 s2 - aqi) * year_fraction
            | none => aqi
          else aqi)

/-- `get_particle_properties(aqi)`: the discrete threshold function to a
(color, size, speed) triple. -/
def get_particle_properties (aqi : ℚ) : (ℤ × ℤ × ℤ) × ℚ × ℚ :=
  if aqi < 50 then (particle_good, 3, 1)
  else if aqi < 100 then (particle_moderate, 4, 3 / 2)
  else if aqi < 150 then (particle_unhealthy, 5, 2)
  else (particle_hazardous, 6, 5 / 2)

/-- A `Particle` object.  `__init__` stores its `size` argument in
`base_size` and never creates a `size` attribute; `update_particles` later
assigns `particle.size`, which we model as the `size : Option ℚ` field
(`none` until that assignment). -/
structure Particle where
  x : ℚ
  y : ℚ
  z : ℚ
  color : ℤ × ℤ × ℤ
  base_size : ℚ
  speed : ℚ
  angle : ℚ
  size : Option ℚ

/-- `Particle.__init__(x, y, color, size, speed)`; the random initial `z`
and `angle` draws are explicit inputs. -/
def Particle.init (x y : ℚ) (color : ℤ × ℤ × ℤ) (size speed z angle : ℚ) : Particle :=
  { x := x, y := y, z := z, color := color, base_size := size,
    speed := speed, angle := angle, size := none }

/-- The per-particle assignments in the `update_particles` loop
(lines 324-327): `particle.color = color; particle.size = size;
particle.speed = speed`.  Note the assignment target is the dynamic
attribute `size`, not `base_size`. -/
def apply_particle_properties (p : Particle) (props : (ℤ × ℤ × ℤ) × ℚ × ℚ) : Particle :=
  { p with color := props.1, size := some props.2.1, speed := props.2.2 }

/-- The radius actually drawn by `Particle.draw`:
`depth_factor = (z + 50) / 100`;
`size = int(base_size * (0.5 + depth_factor * 0.5))`. -/
def rendered_radius (p : Particle) : ℤ :=
  let depth_factor := (p.z + 50) / 100
  pyTrunc (p.base_size * (1 / 2 + depth_factor * (1 / 2)))

/-- The boundary check at the end of `Particle.move`:
`if x < 0: x = limit elif x > limit: x = 0`. -/
def boundary_wrap (x limit : ℚ) : ℚ :=
  if x < 0 then limit else if x > limit then 0 else x

/-- Both coordinates' boundary checks of `Particle.move` (lines 170-177);
the preceding random-walk displacement is left abstract (the particle's
post-move position is this function's input). -/
def particle_boundary (p : Particle) : Particle :=
  { p with x := boundary_wrap p.x (WIDTH : ℚ), y := boundary_wrap p.y (HEIGHT : ℚ) }

/-- The district hit-test of the `MOUSEBUTTONDOWN` branch of `main`
(lines 488-499): `margin = 50`, `grid_size = 3`,
`cell_width = (WIDTH - 2 * margin) // grid_size`, `cell_height = 200`. -/
def district_click (mx my : ℤ) (sel : Option String) : Option String :=
  let margin : ℤ := 50
  let grid_size : ℤ := 3
  let cell_width := Int.fdiv (WIDTH - 2 * margin) grid_size
  let cell_height : ℤ := 200
  if 100 ≤ my ∧ my ≤ 700 then
    let row := Int.fdiv (my - 100) cell_height
    let col := Int.fdiv (mx - margin) cell_width
    let index := row * grid_size + col
    if 0 ≤ index ∧ index < (DISTRICTS.length : ℤ) then
      some (DISTRICTS.getD index.toNat "")
    else sel
  else sel

/-- The external stimuli handled by `main`'s event loop. -/
inductive InputEvent where
  | rightKey : InputEvent
  | leftKey : InputEvent
  | spaceKey : InputEvent
  | mouseDown : ℤ → ℤ → InputEvent

/-- The mutable state of `main`'s loop that the claims are about. -/
structure MainState where
  frame_count : ℕ
  target_year : ℤ
  current_year : ℚ
  selected_district : Option String

/-- One event of `main`'s event loop: `K_RIGHT` sets
`target_year = min(2023, int(target_year) + 1)`, `K_LEFT` sets
`target_year = max(1993, int(target_year) - 1)`, `K_SPACE` resets
`frame_count`, `MOUSEBUTTONDOWN` runs the district hit-test. -/
def handle_event (s : MainState) (e : InputEvent) : MainState :=
  match e with
  | .rightKey => { s with target_year := min 2023 (s.target_year + 1) }
  | .leftKey => { s with target_year := max 1993 (s.target_year - 1) }
  | .spaceKey => { s with frame_count := 0 }
  | .mouseDown mx my =>
      { s with selected_district := district_click mx my s.selected_district }

/-- One iteration of `main`'s `while` loop: process the polled events,
run the year transition of `update_particles`, then `frame_count += 1`
and, when it reaches 300, reset it and advance `target_year` (wrapping
from 2023 to 1993). -/
def frame_step (events : List InputEvent) (s : MainState) : MainState :=
  let s1 := events.foldl handle_event s
  let s2 := { s1 with current_year := tickYear s1.current_year (s1.target_year : ℚ) }
  let fc := s2.frame_count + 1
  if fc ≥ 300 then
    { s2 with frame_count := 0,
              target_year := if s2.target_year < 2023 then s2.target_year + 1 else 1993 }
  else { s2 with frame_count := fc }

/-- The state right after `AirQualityViz.__init__`:
`frame_count = 0`, `target_year = year = 1993`, no selection. -/
def initState : MainState :=
  { frame_count := 0, target_year := 1993, current_year := 1993,
    selected_district := none }

/-- The settling scenario of the spec: iterate the year transition from
`current_year = 1993` toward `target_year = 2000`. -/
def settle_iter (n : ℕ) : ℚ := (fun y => tickYear y 2000)^[n] 1993

/-! Basic facts about the Python-conversion helpers. -/

lemma pyTrunc_intCast (z : ℤ) : pyTrunc (z : ℚ) = z := by
  unfold pyTrunc
  by_cases h : (z : ℚ) < 0
  · rw [if_pos h, ← Int.cast_neg, Int.floor_intCast, neg_neg]
  · rw [if_neg h, Int.floor_intCast]

lemma pyTrunc_of_nonneg {q : ℚ} (h : 0 ≤ q) : pyTrunc q = ⌊q⌋ := by
  unfold pyTrunc
  rw [if_neg (not_lt.mpr h)]

lemma WIDTH_cast : (WIDTH : ℚ) = 1200 := by norm_num [WIDTH]

lemma HEIGHT_cast : (HEIGHT : ℚ) = 800 := by norm_num [HEIGHT]

/-! Shared facts about the district hit-test. -/

lemma cell_width_366 : Int.fdiv (WIDTH - 2 * 50) 3 = 366 := by decide

lemma DISTRICTS_length_cast : ((DISTRICTS.length : ℕ) : ℤ) = 9 := by
  norm_num [DISTRICTS]

lemma district_click_outside_band (mx my : ℤ) (sel : Option String)
    (h : ¬(100 ≤ my ∧ my ≤ 700)) : district_click mx my sel = sel := by
  simp only [district_click]
  rw [if_neg h]

lemma district_click_out_of_range (mx my : ℤ) (sel : Option String)
    (h1 : 100 ≤ my) (h2 : my ≤ 700)
    (h : ¬(0 ≤ Int.fdiv (my - 100) 200 * 3 + Int.fdiv (mx - 50) 366 ∧
           Int.fdiv (my - 100) 200 * 3 + Int.fdiv (mx - 50) 366 < 9)) :
    district_click mx my sel = sel := by
  simp only [district_click]
  rw [if_pos ⟨h1, h2⟩, cell_width_366, DISTRICTS_length_cast, if_neg h]

lemma district_click_in_range (mx my : ℤ) (sel : Option String)
    (h1 : 100 ≤ my) (h2 : my ≤ 700)
    (h3 : 0 ≤ Int.fdiv (my - 100) 200 * 3 + Int.fdiv (mx - 50) 366)
    (h4 : Int.fdiv (my - 100) 200 * 3 + Int.fdiv (mx - 50) 366 < 9) :
    district_click mx my sel =
      some (DISTRICTS.getD
        (Int.fdiv (my - 100) 200 * 3 + Int.fdiv (mx - 50) 366).toNat "") := by
  simp only [district_click]
  rw [if_pos ⟨h1, h2⟩, cell_width_366, DISTRICTS_length_cast, if_pos ⟨h3, h4⟩]

/-- C7: Particle wraparound.  After a move step, `x < 0` is repositioned to
`WIDTH` and `x > WIDTH` to `0` (likewise `y` with `HEIGHT`), wrapping to
the opposite edge; in particular `x = WIDTH + 1` becomes `0`, `x = -1`
becomes `WIDTH`, and `x` exactly `0` or exactly `WIDTH` (and generally any
`x` in `[0, WIDTH]`) is left unchanged; `particle_boundary` applies exactly
this rule to both coordinates. -/
theorem C7_particle_wraparound :
    (∀ x : ℚ, x < 0 → boundary_wrap x (WIDTH : ℚ) = (WIDTH : ℚ)) ∧
    (∀ x : ℚ, (WIDTH : ℚ) < x → boundary_wrap x (WIDTH : ℚ) = 0) ∧
    (∀ y : ℚ, y < 0 → boundary_wrap y (HEIGHT : ℚ) = (HEIGHT : ℚ)) ∧
    (∀ y : ℚ, (HEIGHT : ℚ) < y → boundary_wrap y (HEIGHT : ℚ) = 0) ∧
    boundary_wrap ((WIDTH : ℚ) + 1) (WIDTH : ℚ) = 0 ∧
    boundary_wrap (-1) (WIDTH : ℚ) = (WIDTH : ℚ) ∧
    boundary_wrap 0 (WIDTH : ℚ) = 0 ∧
    boundary_wrap (WIDTH : ℚ) (WIDTH : ℚ) = (WIDTH : ℚ) ∧
    (∀ x : ℚ, 0 ≤ x → x ≤ (WIDTH : ℚ) → boundary_wrap x (WIDTH : ℚ) = x) ∧
    (∀ p : Particle, (particle_boundary p).x = boundary_wrap p.x (WIDTH : ℚ) ∧
      (particle_boundary p).y = boundary_wrap p.y (HEIGHT : ℚ)) := by
  have hW : (WIDTH : ℚ) = 1200 := WIDTH_cast
  refine ⟨?_, ?_, ?_, ?_, ?_, ?_, ?_, ?_, ?_, ?_⟩
  · intro x h
    unfold boundary_wrap
    rw [if_pos h]
  · intro x h
    unfold boundary_wrap
    rw [if_neg (by rw [hW] at h; linarith), if_pos h]
  · intro y h
    unfold boundary_wrap
    rw [if_pos h]
  · intro y h
    unfold boundary_wrap
    rw [if_neg (by rw [HEIGHT_cast] at h; linarith), if_pos h]
  · unfold boundary_wrap
    rw [if_neg (by rw [hW]; norm_num), if_pos (lt_add_one _)]
  · unfold boundary_wrap
    rw [if_pos (by norm_num)]
  · unfold boundary_wrap
    rw [if_neg (lt_irrefl 0), if_neg (by rw [hW]; norm_num)]
  · unfold boundary_wrap
    rw [if_neg (by rw [hW]; norm_num), if_neg (lt_irrefl _)]
  · intro x h0 h1
    unfold boundary_wrap
    rw [if_neg (not_lt.mpr h0), if_neg (not_lt.mpr h1)]
  · intro p
    exact ⟨rfl, rfl⟩

/-- C7 witness: `boundary_wrap` applied at `x = -1` on the horizontal axis. -/
theorem C7_particle_wraparound_witness :
    boundary_wrap (-1) (WIDTH : ℚ) = (WIDTH : ℚ) :=
  C7_particle_wraparound.1 (-1) (neg_lt_zero.mpr one_pos)

/-- C6: District hit-testing.  A press at `(mx, my)` changes the selection
only if `100 ≤ my ≤ 700`; within that band, with `row = (my-100) div 200`,
`col = (mx-50) div 366` and `index = row*3 + col`, `DISTRICTS[index]` is
selected iff `0 ≤ index < 9`, an out-of-range index being a no-op; a press
at `(50, 100)` selects `DISTRICTS[0]` and a press at `my = 50` leaves the
selection unchanged. -/
theorem C6_district_hit_testing :
    (∀ (mx my : ℤ) (sel : Option String), my < 100 ∨ 700 < my →
      district_click mx my sel = sel) ∧
    (∀ (mx my : ℤ) (sel : Option String), 100 ≤ my → my ≤ 700 →
      ¬(0 ≤ Int.fdiv (my - 100) 200 * 3 + Int.fdiv (mx - 50) 366 ∧
        Int.fdiv (my - 100) 200 * 3 + Int.fdiv (mx - 50) 366 < 9) →
      district_click mx my sel = sel) ∧
    (∀ (mx my : ℤ) (sel : Option String), 100 ≤ my → my ≤ 700 →
      0 ≤ Int.fdiv (my - 100) 200 * 3 + Int.fdiv (mx - 50) 366 →
      Int.fdiv (my - 100) 200 * 3 + Int.fdiv (mx - 50) 366 < 9 →
      district_click mx my sel =
        some (DISTRICTS.getD
          (Int.fdiv (my - 100) 200 * 3 + Int.fdiv (mx - 50) 366).toNat "")) ∧
    (∀ sel : Option String, district_click 50 100 sel = some "Central & Western") ∧
    (∀ (mx : ℤ) (sel : Option String), district_click mx 50 sel = sel) := by
  refine ⟨?_, ?_, ?_, ?_, ?_⟩
  · intro mx my sel h
    exact district_click_outside_band mx my sel (by omega)
  · intro mx my sel h1 h2 h
    exact district_click_out_of_range mx my sel h1 h2 h
  · intro mx my sel h1 h2 h3 h4
    exact district_click_in_range mx my sel h1 h2 h3 h4
  · intro sel
    rfl
  · intro mx sel
    rfl

/-- C6 witness: a press above the grid at `(0, 50)` is a no-op. -/
theorem C6_district_hit_testing_witness :
    district_click 0 50 none = none :=
  C6_district_hit_testing.1 0 50 none (Or.inl (by decide))

/-- C10: A press left of the grid margin with `mx < 50` (screen coordinates
have `0 ≤ mx`) and `300 ≤ my ≤ 700` computes `col = -1` by floor division,
so `index = row*3 - 1` lies in `[0, 9)` and a district is selected rather
than the press being a no-op; in particular `(0, 300)` selects
`DISTRICTS[2] = "Southern"`. -/
theorem C10_left_margin_selects :
    (∀ (mx my : ℤ) (sel : Option String), 0 ≤ mx → mx < 50 → 300 ≤ my → my ≤ 700 →
      Int.fdiv (mx - 50) 366 = -1 ∧
      0 ≤ Int.fdiv (my - 100) 200 * 3 - 1 ∧
      Int.fdiv (my - 100) 200 * 3 - 1 < 9 ∧
      district_click mx my sel =
        some (DISTRICTS.getD (Int.fdiv (my - 100) 200 * 3 - 1).toNat "")) ∧
    district_click 0 300 none = some "Southern" := by
  constructor
  · intro mx my sel hmx0 hmx hmy0 hmy1
    have hcol : Int.fdiv (mx - 50) 366 = -1 := by
      rw [Int.fdiv_eq_ediv _ (by norm_num)]
      omega
    have hrow : 1 ≤ Int.fdiv (my - 100) 200 ∧ Int.fdiv (my - 100) 200 ≤ 3 := by
      rw [Int.fdiv_eq_ediv _ (by norm_num)]
      omega
    refine ⟨hcol, by omega, by omega, ?_⟩
    rw [district_click_in_range mx my sel (by omega) hmy1 (by omega) (by omega)]
    rw [hcol, show Int.fdiv (my - 100) 200 * 3 + -1 = Int.fdiv (my - 100) 200 * 3 - 1 by ring]
  · rfl

/-- C10 witness: the concrete press at `(0, 300)`. -/
theorem C10_left_margin_selects_witness :
    Int.fdiv ((0 : ℤ) - 50) 366 = -1 ∧
    0 ≤ Int.fdiv ((300 : ℤ) - 100) 200 * 3 - 1 ∧
    Int.fdiv ((300 : ℤ) - 100) 200 * 3 - 1 < 9 ∧
    district_click 0 300 none =
      some (DISTRICTS.getD (Int.fdiv ((300 : ℤ) - 100) 200 * 3 - 1).toNat "") :=
  C10_left_margin_selects.1 0 300 none (by decide) (by decide) (by decide) (by decide)

/-! Clamp bounds for the generators. -/

lemma np_clip_nonneg (x : ℚ) : 0 ≤ np_clip x 0 150 :=
  le_min (by norm_num) (le_max_left 0 x)

lemma np_clip_le (x : ℚ) : np_clip x 0 150 ≤ 150 :=
  min_le_left 150 (max 0 x)

/-- C3: Clamp invariant of the generators.  For every year key in
`[1993, 2023]` (and every district), every one of the 12 monthly values
returned by `generate_historical_data` and by `generate_district_data`
lies within `[0, 150]`, regardless of the Gaussian noise drawn. -/
theorem C3_clamp_invariant :
    (∀ (noise : ℤ → Fin 12 → ℚ) (year : ℤ), 1993 ≤ year → year ≤ 2023 →
      ∃ sample, generate_historical_data noise year = some sample ∧
        ∀ i, 0 ≤ sample i ∧ sample i ≤ 150) ∧
    (∀ (baseNoise : ℤ → Fin 12 → ℚ) (variation : String → ℤ → ℚ)
       (district : String) (year : ℤ),
      district ∈ DISTRICTS → 1993 ≤ year → year ≤ 2023 →
      ∃ sample, generate_district_data baseNoise variation district year = some sample ∧
        ∀ i, 0 ≤ sample i ∧ sample i ≤ 150) := by
  constructor
  · intro noise year h1 h2
    have he : generate_historical_data noise year =
        some (fun i => np_clip ((basePattern year).getD i.val 0 + noise year i) 0 150) := by
      unfold generate_historical_data
      rw [if_pos ⟨h1, h2⟩]
    exact ⟨_, he, fun i => ⟨np_clip_nonneg _, np_clip_le _⟩⟩
  · intro baseNoise variation district year hd h1 h2
    have he : generate_district_data baseNoise variation district year =
        some (fun i => np_clip
          (np_clip ((basePattern year).getD i.val 0 + baseNoise year i) 0 150 +
            variation district year) 0 150) := by
      unfold generate_district_data generate_historical_data
      rw [if_pos ⟨hd, h1, h2⟩, if_pos ⟨h1, h2⟩, Option.map_some']
    exact ⟨_, he, fun i => ⟨np_clip_nonneg _, np_clip_le _⟩⟩

/-- C3 witness: the aggregate generator at `year = 2000` with zero noise. -/
theorem C3_clamp_invariant_witness :
    ∃ sample, generate_historical_data (fun _ _ => 0) 2000 = some sample ∧
      ∀ i, 0 ≤ sample i ∧ sample i ≤ 150 :=
  C3_clamp_invariant.1 (fun _ _ => 0) 2000 (by decide) (by decide)

/-- C9 counterexample: two invocations of `generate_historical_data` that
draw different Gaussian noise (here the all-zero and all-one draws) return
different year-to-sample mappings, so two-run determinism fails. -/
theorem C9_two_runs_counterexample :
    generate_historical_data (fun _ _ => 0) ≠ generate_historical_data (fun _ _ => 1) := by
  intro h
  have h1 := congrFun h 1993
  norm_num [generate_historical_data] at h1
  have h2 := congrFun h1 ⟨0, by norm_num⟩
  norm_num [np_clip, basePattern] at h2

/-- C9 (amended): the generator's output is a function of the Gaussian
noise it draws from the global RNG, and depends only on the noise drawn
for years 1993-2023: two invocations whose draws agree there return equal
mappings (while invocations drawing different noise may differ, as the
counterexample shows). -/
theorem C9_noise_determines_output :
    ∀ noise1 noise2 : ℤ → Fin 12 → ℚ,
      (∀ year : ℤ, 1993 ≤ year → year ≤ 2023 → ∀ i, noise1 year i = noise2 year i) →
      generate_historical_data noise1 = generate_historical_data noise2 := by
  intro n1 n2 h
  funext year
  unfold generate_historical_data
  by_cases hy : 1993 ≤ year ∧ year ≤ 2023
  · rw [if_pos hy, if_pos hy]
    congr 1
    funext i
    rw [h year hy.1 hy.2 i]
  · rw [if_neg hy, if_neg hy]

/-- C9 witness: draws that agree on 1993-2023 but differ outside that
range produce equal mappings. -/
theorem C9_noise_determines_output_witness :
    generate_historical_data (fun _ _ => 0) =
      generate_historical_data
        (fun year _ => if 1993 ≤ year ∧ year ≤ 2023 then 0 else 37) :=
  C9_noise_determines_output _ _ (by intro year h1 h2 i; simp [h1, h2])

/-- C8: on every tick the controller derives one (color, size, speed)
triple from the interpolated AQI via the threshold tiers and overwrites
every particle's shared `color`, `speed` and `size` attribute with it —
but the assignment writes the dynamic attribute `size`, NOT the
`base_size` field that `Particle.draw` uses for the rendered radius:
below, a particle constructed with `base_size = 4` keeps rendered radius
based on 4 (at `z = 50`, radius 4) even after an update whose tier size
is 3, contradicting the claim that the overwritten size is "the base size
used to compute the rendered radius". -/
theorem C8_particle_size_divergence :
    (∀ (p : Particle) (props : (ℤ × ℤ × ℤ) × ℚ × ℚ),
      (apply_particle_properties p props).color = props.1 ∧
      (apply_particle_properties p props).speed = props.2.2 ∧
      (apply_particle_properties p props).size = some props.2.1 ∧
      (apply_particle_properties p props).base_size = p.base_size) ∧
    (∀ (particles : List Particle) (props : (ℤ × ℤ × ℤ) × ℚ × ℚ),
      (particles.map (fun p => apply_particle_properties p props)).map Particle.color =
        List.replicate particles.length props.1 ∧
      (particles.map (fun p => apply_particle_properties p props)).map Particle.speed =
        List.replicate particles.length props.2.2 ∧
      (particles.map (fun p => apply_particle_properties p props)).map Particle.base_size =
        particles.map Particle.base_size) ∧
    get_particle_properties 30 = (particle_good, 3, 1) ∧
    (apply_particle_properties (Particle.init 100 100 particle_moderate 4 (3 / 2) 50 0)
        (get_particle_properties 30)).base_size = 4 ∧
    (apply_particle_properties (Particle.init 100 100 particle_moderate 4 (3 / 2) 50 0)
        (get_particle_properties 30)).size = some 3 ∧
    rendered_radius (apply_particle_properties
        (Particle.init 100 100 particle_moderate 4 (3 / 2) 50 0)
        (get_particle_properties 30)) = 4 := by
  have hprops : get_particle_properties 30 = (particle_good, 3, 1) := by
    unfold get_particle_properties
    rw [if_pos (by norm_num)]
  refine ⟨?_, ?_, hprops, rfl, ?_, ?_⟩
  · intro p props
    exact ⟨rfl, rfl, rfl, rfl⟩
  · intro particles props
    refine ⟨?_, ?_, ?_⟩
    · rw [List.map_map]
      exact List.map_const' particles props.1
    · rw [List.map_map]
      exact List.map_const' particles props.2.2
    · rw [List.map_map]
      rfl
  · rw [hprops]
    rfl
  · have hbs : (apply_particle_properties
        (Particle.init 100 100 particle_moderate 4 (3 / 2) 50 0)
        (get_particle_properties 30)).base_size = 4 := rfl
    have hz : (apply_particle_properties
        (Particle.init 100 100 particle_moderate 4 (3 / 2) 50 0)
        (get_particle_properties 30)).z = 50 := rfl
    unfold rendered_radius
    rw [hbs, hz]
    show pyTrunc (4 * (1 / 2 + (50 + 50) / 100 * (1 / 2))) = 4
    rw [show (4 : ℚ) * (1 / 2 + (50 + 50) / 100 * (1 / 2)) = ((4 : ℤ) : ℚ) by norm_num,
      pyTrunc_intCast]

/-! Facts about the color mapper. -/

lemma interpolate_color_zero (c1 c2 : ℤ × ℤ × ℤ) : interpolate_color c1 c2 0 = c1 := by
  obtain ⟨a, b, c⟩ := c1
  obtain ⟨d, e, f⟩ := c2
  simp only [interpolate_color, mul_zero, add_zero, pyTrunc_intCast]

lemma get_color_interior (v : ℚ) (h1 : 0 < v) (h2 : v < 150) :
    get_color_for_value v 0 150 =
      interpolate_color (GRADIENT_COLORS.getD ⌊v / 30⌋.toNat (0, 0, 0))
        (GRADIENT_COLORS.getD (⌊v / 30⌋.toNat + 1) (0, 0, 0))
        ((v - 30 * (⌊v / 30⌋ : ℚ)) / 30) := by
  have hfl : 0 ≤ ⌊v / 30⌋ := Int.floor_nonneg.mpr (by positivity)
  have hlen : ((GRADIENT_COLORS.length : ℚ) - 1) = 5 := by
    norm_num [GRADIENT_COLORS]
  simp only [get_color_for_value, hlen]
  rw [if_neg (not_le.mpr h1), if_neg (not_le.mpr (by linarith)), sub_zero]
  rw [show ((150 : ℚ) - 0) / 5 = 30 by norm_num]
  rw [pyTrunc_of_nonneg (by positivity)]
  rw [show (⌊v / 30⌋ + 1).toNat = ⌊v / 30⌋.toNat + 1 by omega]
  unfold pyMod
  rfl

/-- C4: Color mapper contract at `(min, max) = (0, 150)`: `v ≤ 0` returns
the first gradient stop and `v ≥ 150` the last; for `0 < v < 150` the
range splits into 5 sections of width 30, the section containing `v`
(index `⌊v/30⌋`) and the fractional offset within it drive a linear
per-channel interpolation between the two bounding stops; at an interior
multiple of 30 the stop's color is returned unblended. -/
theorem C4_color_mapper :
    (∀ v : ℚ, v ≤ 0 → get_color_for_value v 0 150 = (50, 205, 50)) ∧
    (∀ v : ℚ, 150 ≤ v → get_color_for_value v 0 150 = (128, 0, 0)) ∧
    (∀ v : ℚ, 0 < v → v < 150 →
      get_color_for_value v 0 150 =
        interpolate_color (GRADIENT_COLORS.getD ⌊v / 30⌋.toNat (0, 0, 0))
          (GRADIENT_COLORS.getD (⌊v / 30⌋.toNat + 1) (0, 0, 0))
          ((v - 30 * (⌊v / 30⌋ : ℚ)) / 30)) ∧
    (∀ v : ℚ, 0 < v → v < 150 →
      30 * ((⌊v / 30⌋ : ℤ) : ℚ) ≤ v ∧ v < 30 * ((⌊v / 30⌋ : ℚ) + 1)) ∧
    (∀ k : ℤ, 1 ≤ k → k ≤ 4 →
      get_color_for_value (30 * (k : ℚ)) 0 150 =
        GRADIENT_COLORS.getD k.toNat (0, 0, 0)) := by
  refine ⟨?_, ?_, ?_, ?_, ?_⟩
  · intro v h
    unfold get_color_for_value
    rw [if_pos h]
    rfl
  · intro v h
    unfold get_color_for_value
    rw [if_neg (not_le.mpr (by linarith)), if_pos h]
    rfl
  · intro v h1 h2
    exact get_color_interior v h1 h2
  · intro v h1 h2
    have hle : (⌊v / 30⌋ : ℚ) ≤ v / 30 := Int.floor_le _
    have hlt : v / 30 < (⌊v / 30⌋ : ℚ) + 1 := Int.lt_floor_add_one _
    constructor
    · linarith
    · linarith
  · intro k hk1 hk4
    have hc1 : (1 : ℚ) ≤ (k : ℚ) := by exact_mod_cast hk1
    have hc4 : (k : ℚ) ≤ 4 := by exact_mod_cast hk4
    rw [get_color_interior (30 * (k : ℚ)) (by linarith) (by linarith)]
    have hfl : ⌊30 * (k : ℚ) / 30⌋ = k := by
      rw [show 30 * (k : ℚ) / 30 = (k : ℚ) by ring, Int.floor_intCast]
    rw [hfl, show (30 * (k : ℚ) - 30 * (k : ℚ)) / 30 = 0 by ring, interpolate_color_zero]

/-- C4 witness: `v = 0` is mapped to the first gradient stop. -/
theorem C4_color_mapper_witness :
    get_color_for_value 0 0 150 = (50, 205, 50) :=
  C4_color_mapper.1 0 (le_refl 0)

/-! Facts about the year-transition step and the settling scenario. -/

lemma tickYear_far {y t : ℚ} (h : 1 / 100 < |y - t|) :
    tickYear y t = y + (t - y) * year_transition_speed := if_pos h

lemma tickYear_near {y t : ℚ} (h : ¬1 / 100 < |y - t|) : tickYear y t = t := if_neg h

lemma tickYear_self (t : ℚ) : tickYear t t = t := by
  apply tickYear_near
  rw [sub_self, abs_zero]
  norm_num

lemma seven_pow_127 : (1 : ℚ) / 100 < 7 * (19 / 20) ^ 127 := by
  rw [show (7 : ℚ) * (19 / 20) ^ 127 = 7 * 19 ^ 127 / 20 ^ 127 by rw [div_pow]; ring]
  rw [div_lt_div_iff₀ (by norm_num) (by positivity)]
  norm_num

lemma seven_pow_128 : (7 : ℚ) * (19 / 20) ^ 128 ≤ 1 / 100 := by
  rw [show (7 : ℚ) * (19 / 20) ^ 128 = 7 * 19 ^ 128 / 20 ^ 128 by rw [div_pow]; ring]
  rw [div_le_div_iff₀ (by positivity) (by norm_num)]
  norm_num

lemma settle_iter_succ (n : ℕ) : settle_iter (n + 1) = tickYear (settle_iter n) 2000 := by
  unfold settle_iter
  rw [Function.iterate_succ_apply']

lemma settle_iter_eq : ∀ n : ℕ, n ≤ 128 → settle_iter n = 2000 - 7 * (19 / 20) ^ n := by
  intro n
  induction n with
  | zero =>
    intro _
    norm_num [settle_iter]
  | succ m ih =>
    intro h
    have hv : settle_iter m = 2000 - 7 * (19 / 20) ^ m := ih (by omega)
    have hq : (1 : ℚ) / 100 < 7 * (19 / 20) ^ m := by
      have hmono : (19 / 20 : ℚ) ^ 127 ≤ (19 / 20) ^ m :=
        pow_le_pow_of_le_one (by norm_num) (by norm_num) (by omega)
      calc (1 : ℚ) / 100 < 7 * (19 / 20) ^ 127 := seven_pow_127
        _ ≤ 7 * (19 / 20) ^ m := by linarith
    have habs : 1 / 100 < |settle_iter m - 2000| := by
      rw [hv, show (2000 : ℚ) - 7 * (19 / 20) ^ m - 2000 = -(7 * (19 / 20) ^ m) by ring,
        abs_neg, abs_of_pos (by positivity)]
      exact hq
    rw [settle_iter_succ, tickYear_far habs, hv, year_transition_speed, pow_succ]
    ring

lemma settle_iter_dist (n : ℕ) (h : n ≤ 128) :
    |settle_iter n - 2000| = 7 * (19 / 20) ^ n := by
  rw [settle_iter_eq n h, show (2000 : ℚ) - 7 * (19 / 20) ^ n - 2000 = -(7 * (19 / 20) ^ n) by ring,
    abs_neg, abs_of_pos (by positivity)]

lemma settle_iter_129 : settle_iter 129 = 2000 := by
  rw [show (129 : ℕ) = 128 + 1 from rfl, settle_iter_succ]
  apply tickYear_near
  rw [settle_iter_dist 128 (le_refl _)]
  exact not_lt.mpr seven_pow_128

/-- C1: Animation settling.  The per-tick update moves `current_year` by
5% of the gap while `|current_year - target_year| > 0.01` and snaps to the
target otherwise; from 1993 toward 2000 the distance to the target
strictly decreases on every one of the first 129 ticks (and in general on
any tick whose state is not yet at the target), after 128 ticks the
distance is within 0.01, and the following tick yields exactly 2000. -/
theorem C1_animation_settling :
    (∀ y t : ℚ, y ≠ t → |tickYear y t - t| < |y - t|) ∧
    (∀ n : ℕ, n ≤ 128 → |settle_iter (n + 1) - 2000| < |settle_iter n - 2000|) ∧
    |settle_iter 128 - 2000| ≤ 1 / 100 ∧
    settle_iter 129 = 2000 := by
  have hdec : ∀ y t : ℚ, y ≠ t → |tickYear y t - t| < |y - t| := by
    intro y t h
    have hpos : 0 < |y - t| := abs_pos.mpr (sub_ne_zero.mpr h)
    by_cases hc : 1 / 100 < |y - t|
    · rw [tickYear_far hc, year_transition_speed,
        show y + (t - y) * (1 / 20) - t = (y - t) * (19 / 20) by ring, abs_mul,
        show |(19 : ℚ) / 20| = 19 / 20 by rw [abs_of_pos]; norm_num]
      nlinarith
    · rw [tickYear_near hc, sub_self, abs_zero]
      exact hpos
  refine ⟨hdec, ?_, ?_, settle_iter_129⟩
  · intro n h
    rw [settle_iter_succ n]
    apply hdec
    have hd := settle_iter_dist n h
    have hpos : (0 : ℚ) < 7 * (19 / 20) ^ n := by positivity
    intro heq
    rw [heq, sub_self, abs_zero] at hd
    linarith
  · rw [settle_iter_dist 128 (le_refl _)]
    exact seven_pow_128

/-- C1 witness: the first tick of the 1993-to-2000 scenario strictly
shrinks the distance to the target. -/
theorem C1_animation_settling_witness :
    |settle_iter 1 - 2000| < |settle_iter 0 - 2000| :=
  C1_animation_settling.2.1 0 (by decide)

/-! Facts about the interpolated-AQI computation. -/

lemma update_aqi_blend (data : ℤ → Option (Fin 12 → ℚ)) (year : ℚ) (s0 s1 : Fin 12 → ℚ)
    (h0 : 0 ≤ year) (hs0 : data ⌊year⌋ = some s0)
    (hs1 : data (min 2023 (⌊year⌋ + 1)) = some s1) (hf : 0 < year - (⌊year⌋ : ℚ)) :
    update_particles_aqi data year =
      some (mean12 s0 + (mean12 s1 - mean12 s0) * (year - (⌊year⌋ : ℚ))) := by
  have ht := pyTrunc_of_nonneg h0
  simp only [update_particles_aqi, ht, hs0, hs1]
  rw [if_pos hf]

lemma update_aqi_int (data : ℤ → Option (Fin 12 → ℚ)) (Y : ℤ) (s0 : Fin 12 → ℚ)
    (hs0 : data Y = some s0) :
    update_particles_aqi data (Y : ℚ) = some (mean12 s0) := by
  simp only [update_particles_aqi, pyTrunc_intCast, hs0, sub_self]
  norm_num

lemma update_aqi_next_missing (data : ℤ → Option (Fin 12 → ℚ)) (year : ℚ) (s0 : Fin 12 → ℚ)
    (h0 : 0 ≤ year) (hs0 : data ⌊year⌋ = some s0)
    (hs1 : data (min 2023 (⌊year⌋ + 1)) = none) :
    update_particles_aqi data year = some (mean12 s0) := by
  have ht := pyTrunc_of_nonneg h0
  simp only [update_particles_aqi, ht, hs0, hs1, ite_self]

/-- C2: Interpolated AQI.  With `y0 = floor(current_year)`,
`y1 = min(2023, y0+1)` and `frac = current_year - y0`, the derived AQI is
`mean(sample[y0]) + (mean(sample[y1]) - mean(sample[y0])) * frac` when
`frac > 0` and `y1` is a key, and `mean(sample[y0])` otherwise (integer
year or missing `y1`); at `current_year = Y.5` it is the arithmetic mean
of the two adjacent yearly means; and the `update_particles`, `draw` and
per-district call sites compute the identical formula. -/
theorem C2_interpolated_aqi :
    (∀ (data : ℤ → Option (Fin 12 → ℚ)) (year : ℚ) (s0 s1 : Fin 12 → ℚ),
      1993 ≤ year → year ≤ 2023 →
      data ⌊year⌋ = some s0 → data (min 2023 (⌊year⌋ + 1)) = some s1 →
      0 < year - (⌊year⌋ : ℚ) →
      update_particles_aqi data year =
        some (mean12 s0 + (mean12 s1 - mean12 s0) * (year - (⌊year⌋ : ℚ)))) ∧
    (∀ (data : ℤ → Option (Fin 12 → ℚ)) (Y : ℤ) (s0 : Fin 12 → ℚ),
      data Y = some s0 → update_particles_aqi data (Y : ℚ) = some (mean12 s0)) ∧
    (∀ (data : ℤ → Option (Fin 12 → ℚ)) (year : ℚ) (s0 : Fin 12 → ℚ),
      1993 ≤ year → year ≤ 2023 →
      data ⌊year⌋ = some s0 → data (min 2023 (⌊year⌋ + 1)) = none →
      update_particles_aqi data year = some (mean12 s0)) ∧
    (∀ (data : ℤ → Option (Fin 12 → ℚ)) (Y : ℤ) (s0 s1 : Fin 12 → ℚ),
      1993 ≤ Y → Y < 2023 →
      data Y = some s0 → data (Y + 1) = some s1 →
      update_particles_aqi data ((Y : ℚ) + 1 / 2) =
        some ((mean12 s0 + mean12 s1) / 2)) ∧
    (∀ (data : ℤ → Option (Fin 12 → ℚ)) (year : ℚ),
      update_particles_aqi data year = draw_overall_aqi data year) ∧
    (∀ (district_data : String → ℤ → Option (Fin 12 → ℚ)) (district : String) (year : ℚ),
      draw_district_aqi district_data district year =
        update_particles_aqi (district_data district) year) := by
  refine ⟨?_, ?_, ?_, ?_, ?_, ?_⟩
  · intro data year s0 s1 h1 _h2 hs0 hs1 hf
    exact update_aqi_blend data year s0 s1 (by linarith) hs0 hs1 hf
  · intro data Y s0 hs0
    exact update_aqi_int data Y s0 hs0
  · intro data year s0 h1 _h2 hs0 hs1
    exact update_aqi_next_missing data year s0 (by linarith) hs0 hs1
  · intro data Y s0 s1 h1 h2 hs0 hs1
    have hYc : (1993 : ℚ) ≤ (Y : ℚ) := by exact_mod_cast h1
    have hfl : ⌊(Y : ℚ) + 1 / 2⌋ = Y := by
      rw [Int.floor_int_add, show ⌊(1 : ℚ) / 2⌋ = 0 by
        rw [Int.floor_eq_zero_iff]
        constructor <;> norm_num, add_zero]
    have hmin : min 2023 (Y + 1) = Y + 1 := min_eq_right (by omega)
    have hb := update_aqi_blend data ((Y : ℚ) + 1 / 2) s0 s1 (by linarith)
      (by rw [hfl]; exact hs0) (by rw [hfl, hmin]; exact hs1)
      (by rw [hfl]; ring_nf; norm_num)
    rw [hfl] at hb
    rw [hb]
    congr 1
    ring
  · intro data year
    rfl
  · intro district_data district year
    rfl

/-- C2 witness: the midpoint rule at `Y = 2000` over a constant dataset. -/
theorem C2_interpolated_aqi_witness :
    update_particles_aqi (fun _ => some (fun _ => (60 : ℚ))) (((2000 : ℤ) : ℚ) + 1 / 2) =
      some ((mean12 (fun _ => (60 : ℚ)) + mean12 (fun _ => (60 : ℚ))) / 2) :=
  C2_interpolated_aqi.2.2.2.1 (fun _ => some (fun _ => (60 : ℚ))) 2000 _ _
    (by decide) (by decide) rfl rfl

/-! Facts about the main-loop state machine. -/

lemma handle_event_bounds (s : MainState) (e : InputEvent)
    (h1 : 1993 ≤ s.target_year) (h2 : s.target_year ≤ 2023) :
    1993 ≤ (handle_event s e).target_year ∧ (handle_event s e).target_year ≤ 2023 := by
  cases e <;> dsimp only [handle_event] <;> omega

lemma foldl_handle_bounds : ∀ (events : List InputEvent) (s : MainState),
    1993 ≤ s.target_year → s.target_year ≤ 2023 →
    1993 ≤ (events.foldl handle_event s).target_year ∧
      (events.foldl handle_event s).target_year ≤ 2023 := by
  intro events
  induction events with
  | nil =>
    intro s h1 h2
    exact ⟨h1, h2⟩
  | cons e rest ih =>
    intro s h1 h2
    rw [List.foldl_cons]
    exact ih _ (handle_event_bounds s e h1 h2).1 (handle_event_bounds s e h1 h2).2

lemma frame_step_bounds (events : List InputEvent) (s : MainState)
    (h1 : 1993 ≤ s.target_year) (h2 : s.target_year ≤ 2023) :
    1993 ≤ (frame_step events s).target_year ∧ (frame_step events s).target_year ≤ 2023 := by
  obtain ⟨g1, g2⟩ := foldl_handle_bounds events s h1 h2
  simp only [frame_step]
  split_ifs <;> dsimp only <;> omega

lemma cast_1993 : ((1993 : ℤ) : ℚ) = 1993 := by norm_num

lemma frame_iter_pre : ∀ k : ℕ, k ≤ 299 →
    (frame_step [])^[k] initState =
      { frame_count := k, target_year := 1993, current_year := 1993,
        selected_district := none } := by
  intro k
  induction k with
  | zero =>
    intro _
    rfl
  | succ m ih =>
    intro h
    rw [Function.iterate_succ_apply', ih (by omega)]
    simp only [frame_step, List.foldl, cast_1993, tickYear_self]
    rw [if_neg (by omega : ¬m + 1 ≥ 300)]

lemma frame_iter_300 :
    (frame_step [])^[300] initState =
      { frame_count := 0, target_year := 1994, current_year := 1993,
        selected_district := none } := by
  rw [show (300 : ℕ) = 299 + 1 from rfl, Function.iterate_succ_apply',
    frame_iter_pre 299 (le_refl _)]
  simp only [frame_step, List.foldl, cast_1993, tickYear_self]
  rw [if_pos (by omega : 299 + 1 ≥ 300), if_pos (by omega : (1993 : ℤ) < 2023)]
  norm_num

/-- C5: `target_year` stays in `[1993, 2023]` under every sequence of
external stimuli (clamped key presses; automatic advance every 300 frames
wrapping from 2023 to 1993); and from
`current_year = target_year = 1993`, 300 tick iterations with no input
fire the automatic advance exactly once (the target is still 1993 after
every shorter run), leaving `target_year = 1994`, a reset frame counter
and `current_year` still at 1993. -/
theorem C5_target_year_invariant :
    (∀ (s : MainState) (e : InputEvent), 1993 ≤ s.target_year → s.target_year ≤ 2023 →
      1993 ≤ (handle_event s e).target_year ∧ (handle_event s e).target_year ≤ 2023) ∧
    (∀ (events : List InputEvent) (s : MainState),
      1993 ≤ s.target_year → s.target_year ≤ 2023 →
      1993 ≤ (frame_step events s).target_year ∧
        (frame_step events s).target_year ≤ 2023) ∧
    (∀ k : ℕ, k ≤ 299 → ((frame_step [])^[k] initState).target_year = 1993) ∧
    ((frame_step [])^[300] initState).target_year = 1994 ∧
    ((frame_step [])^[300] initState).frame_count = 0 ∧
    ((frame_step [])^[300] initState).current_year = 1993 := by
  refine ⟨handle_event_bounds, frame_step_bounds, ?_, ?_, ?_, ?_⟩
  · intro k h
    rw [frame_iter_pre k h]
  · rw [frame_iter_300]
  · rw [frame_iter_300]
  · rw [frame_iter_300]

/-- C5 witness: after one no-input frame the target year is still 1993. -/
theorem C5_target_year_invariant_witness :
    ((frame_step [])^[1] initState).target_year = 1993 :=
  C5_target_year_invariant.2.2.1 1 (by decide)

end HKAir
